import Mathlib

/-!
Verification development for the NFT orchestrator service
(`main.py` plus its eight agent modules, `nftbrand.py` serving as the
representative agent — the other seven are structurally identical and
differ only in their tool catalogs).

The external collaborators (the OpenAI decision service and the Unleash
NFTs REST provider) are modelled as oracles supplied to the embedded
functions; everything the repository itself computes is embedded as
executable Lean definitions following the Python source line by line.
-/

/-- A JSON value, the shape of decision-service-supplied arguments and of
the structured results the handlers return (`Dict[str, Any]` in the
source). Object fields keep insertion order, as Python dicts do. -/
inductive JValue where
  | jnull
  | jbool (b : Bool)
  | jnum (n : Int)
  | jstr (s : String)
  | jarr (xs : List JValue)
  | jobj (fields : List (String × JValue))

/-- Python `str()` rendering of a value, used by f-strings when a value is
interpolated into a URL. Composite values are rendered approximately;
no embedded code path inspects the rendering of a composite. -/
def pyStr : JValue → String
  | .jnull => "None"
  | .jbool true => "True"
  | .jbool false => "False"
  | .jnum n => toString n
  | .jstr s => s
  | .jarr _ => "[...]"
  | .jobj _ => "\x7b...\x7d"

/-- `json.dumps` rendering (string escaping elided: no claim inspects the
rendered text beyond equality of whole renderings). -/
def jDump : JValue → String
  | .jnull => "null"
  | .jbool true => "true"
  | .jbool false => "false"
  | .jnum n => toString n
  | .jstr s => "\"" ++ s ++ "\""
  | .jarr xs => "[" ++ String.intercalate ", " (xs.attach.map (fun x => jDump x.1)) ++ "]"
  | .jobj fs =>
      "\x7b" ++
        String.intercalate ", "
          (fs.attach.map (fun f => "\"" ++ f.1.1 ++ "\": " ++ jDump f.1.2)) ++
      "\x7d"
decreasing_by
  · rename_i xs
    have h1 : sizeOf x.1 < sizeOf xs := List.sizeOf_lt_of_mem x.2
    simp only [JValue.jarr.sizeOf_spec]
    omega
  · rename_i fs
    obtain ⟨⟨a, b⟩, hf⟩ := f
    have h1 : sizeOf (a, b) < sizeOf fs := List.sizeOf_lt_of_mem hf
    simp only [JValue.jobj.sizeOf_spec, Prod.mk.sizeOf_spec] at h1 ⊢
    omega

/-- Lookup in an association list of JSON object fields / keyword
arguments (first occurrence wins, as for parsed JSON objects). -/
def lookupArg : List (String × JValue) → String → Option JValue
  | [], _ => none
  | (k, v) :: rest, n => if k = n then some v else lookupArg rest n

/-- Field lookup on a JSON object value. -/
def jLookup : JValue → String → Option JValue
  | .jobj fs, n => lookupArg fs n
  | _, _ => none

/-- Value bound to a parameter after keyword binding (total accessor;
binding guarantees presence for the names we access). -/
def getArg (bound : List (String × JValue)) (n : String) : JValue :=
  (lookupArg bound n).getD .jnull

/-- A formal parameter of a Python handler: name plus default value
(`none` means the parameter is required). -/
abbrev PyParams := List (String × Option JValue)

/-- Walk the parameter list, drawing each value from the supplied keyword
arguments or from the default; `none` when a required parameter is
missing (Python: `TypeError: missing required argument`). -/
def collectParams : PyParams → List (String × JValue) → Option (List (String × JValue))
  | [], _ => some []
  | (n, d) :: ps, args =>
    match lookupArg args n, d with
    | some v, _ => (collectParams ps args).map (fun r => (n, v) :: r)
    | none, some dv => (collectParams ps args).map (fun r => (n, dv) :: r)
    | none, none => none

/-- Python keyword-argument binding for `handler(**arguments)`: every
supplied key must name a declared parameter and every required parameter
must be supplied; otherwise the call itself raises `TypeError` before the
handler body runs. The error carries the Python message in spirit. -/
def bindArgs (params : PyParams) (args : List (String × JValue)) :
    Except String (List (String × JValue)) :=
  if args.all (fun a => params.any (fun p => p.1 = a.1)) then
    match collectParams params args with
    | some bound => .ok bound
    | none => .error "TypeError: missing a required keyword argument"
  else .error "TypeError: unexpected keyword argument"

/-- Result of one `requests.get` call against the analytics provider:
either a parsed JSON body (2xx) or a `requests.exceptions.RequestException`
(transport fault, or non-2xx via `raise_for_status`) carrying `str(e)`. -/
inductive HttpResult where
  | ok (body : JValue)
  | reqErr (msg : String)

/-- The HTTP collaborator as an oracle: URL and query parameters in,
result out. Headers are fixed (accept + api key) and carry no
information, so they are not part of the oracle's domain. -/
abbrev HttpOracle := String → List (String × JValue) → HttpResult

/-- `self.base_url` of `NFTBrandAgent`. -/
def brandBaseUrl : String := "https://api.unleashnfts.com/api/v1/brand"

/-- `NFTBrandAgent.get_brand_details` (nftbrand.py:166): one GET against
the brand endpoint; a `RequestException` is caught and mapped to
an error record. -/
def get_brand_details (http : HttpOracle) (brand : JValue) (time_range : JValue) : JValue :=
  match http brandBaseUrl [("brand", brand), ("time_range", time_range)] with
  | .ok result => result
  | .reqErr e => .jobj [("error", .jstr ("API request failed: " ++ e))]

/-- `NFTBrandAgent.get_brand_metrics_by_contract` (nftbrand.py:206). -/
def get_brand_metrics_by_contract (http : HttpOracle)
    (contract_address : JValue) (chain_id : JValue) (time_range : JValue) : JValue :=
  match http (brandBaseUrl ++ "/" ++ pyStr chain_id ++ "/" ++ pyStr contract_address)
      [("time_range", time_range)] with
  | .ok result => result
  | .reqErr e => .jobj [("error", .jstr ("API request failed: " ++ e))]

/-- `NFTBrandAgent.get_brand_category_details` (nftbrand.py:251). -/
def get_brand_category_details (http : HttpOracle)
    (category : JValue) (limit : JValue) (offset : JValue) : JValue :=
  match http (brandBaseUrl ++ "/category")
      [("category", category), ("offset", offset), ("limit", limit)] with
  | .ok result => result
  | .reqErr e => .jobj [("error", .jstr ("API request failed: " ++ e))]

/-- Parameter list of `get_brand_details(self, brand, time_range="24h")`. -/
def brandDetailsParams : PyParams := [("brand", none), ("time_range", some (.jstr "24h"))]

/-- Parameter list of
`get_brand_metrics_by_contract(self, contract_address, chain_id=1, time_range="24h")`. -/
def brandContractParams : PyParams :=
  [("contract_address", none), ("chain_id", some (.jnum 1)), ("time_range", some (.jstr "24h"))]

/-- Parameter list of
`get_brand_category_details(self, category, limit=30, offset=0)`. -/
def brandCategoryParams : PyParams :=
  [("category", none), ("limit", some (.jnum 30)), ("offset", some (.jnum 0))]

/-- `NFTBrandAgent.execute_function_call` (nftbrand.py:298): dispatch on
the tool name; an unknown name yields an error record (never a fault),
while a known name binds `**arguments` (which can raise `TypeError`,
modelled as `Except.error`) and then runs the handler. -/
def execute_function_call (http : HttpOracle) (function_name : String)
    (arguments : List (String × JValue)) : Except String JValue :=
  if function_name = "get_brand_details" then
    match bindArgs brandDetailsParams arguments with
    | .error e => .error e
    | .ok b => .ok (get_brand_details http (getArg b "brand") (getArg b "time_range"))
  else if function_name = "get_brand_metrics_by_contract" then
    match bindArgs brandContractParams arguments with
    | .error e => .error e
    | .ok b => .ok (get_brand_metrics_by_contract http
        (getArg b "contract_address") (getArg b "chain_id") (getArg b "time_range"))
  else if function_name = "get_brand_category_details" then
    match bindArgs brandCategoryParams arguments with
    | .error e => .error e
    | .ok b => .ok (get_brand_category_details http
        (getArg b "category") (getArg b "limit") (getArg b "offset"))
  else
    .ok (.jobj [("error", .jstr ("Unknown function: " ++ function_name))])

/-- One requested operation invocation as parsed from the decision
service's response: opaque call id, tool name, and the argument mapping
obtained by `json.loads(tool_call.function.arguments)`. -/
structure ToolCall where
  id : String
  name : String
  args : List (String × JValue)

/-- One turn of the conversation transcript (the `messages` list).
The assistant turn appended in the tool path carries the tool calls;
a tool turn carries the originating call id and the serialized result. -/
inductive Msg where
  | system (content : String)
  | user (content : String)
  | assistant (calls : List ToolCall)
  | toolResult (tool_call_id : String) (content : String)

/-- Outcome of a round-1 decision-service call
(`client.chat.completions.create(..., tools=..., tool_choice="auto")`):
the call can raise (unreachable service, malformed output), return plain
content, or request tool invocations. -/
inductive Decision1 where
  | fail (msg : String)
  | direct (text : String)
  | tools (calls : List ToolCall)

/-- Outcome of a round-2 (synthesis) decision-service call, made with no
tools offered: it can raise or return content. -/
inductive Decision2 where
  | fail (msg : String)
  | text (t : String)

/-- The external collaborators of `NFTBrandAgent.chat`: the two
decision-service rounds (each a function of the conversation supplied to
it) and the HTTP collaborator used by the handlers. -/
structure AgentEnv where
  decide : List Msg → Decision1
  synth : List Msg → Decision2
  http : HttpOracle

/-- The system turn of `NFTBrandAgent.chat` (nftbrand.py:338; its full
text is tool-usage guidance for the decision service and is never
inspected by the protocol itself). -/
def brandSystemPrompt : String :=
  "You are an NFT Brand Metrics Assistant. You help users get information about NFT brand metrics using three main tools."

/-- Initial conversation of one `NFTBrandAgent.chat` invocation. -/
def brandInitMsgs (user_message : String) : List Msg :=
  [.system brandSystemPrompt, .user user_message]

/-- The tool-call loop of `NFTBrandAgent.chat` (nftbrand.py:387-408):
process each requested call in order, appending one tool turn per call.
Returns the dispatched tool names (observation) and either the extended
conversation or the exception that aborted the loop (a dispatch fault
propagates to the surrounding `try`). -/
def processToolCalls (http : HttpOracle) :
    List Msg → List ToolCall → List String × Except String (List Msg)
  | msgs, [] => ([], .ok msgs)
  | msgs, c :: cs =>
    match execute_function_call http c.name c.args with
    | .error e => ([c.name], .error e)
    | .ok res =>
      let rest := processToolCalls http (msgs ++ [.toolResult c.id (jDump res)]) cs
      (c.name :: rest.1, rest.2)

/-- Observable outcome of one agent `chat` invocation: the returned text,
the conversation passed to the round-2 synthesis call (`none` when no
synthesis call was made), and the tool names dispatched, in order. -/
structure AgentRun where
  result : String
  preSynthMsgs : Option (List Msg)
  dispatched : List String

/-- `NFTBrandAgent.chat` (nftbrand.py:316-446): round 1 decision; on a
direct answer return it; on tool calls run the dispatch loop and then
the round-2 synthesis call; any exception inside the body is caught and
returned as the string `"An error occurred: " ++ str(e)`. -/
def agentChat (env : AgentEnv) (user_message : String) : AgentRun :=
  let msgs0 := brandInitMsgs user_message
  match env.decide msgs0 with
  | .fail e => ⟨"An error occurred: " ++ e, none, []⟩
  | .direct t => ⟨t, none, []⟩
  | .tools calls =>
    let msgs1 := msgs0 ++ [.assistant calls]
    match processToolCalls env.http msgs1 calls with
    | (ns, .error e) => ⟨"An error occurred: " ++ e, none, ns⟩
    | (ns, .ok m) =>
      match env.synth m with
      | .fail e => ⟨"An error occurred: " ++ e, some m, ns⟩
      | .text t => ⟨t, some m, ns⟩

/-- Observable events of one orchestrator invocation: an agent run
beginning (with the sub-query handed to it) and an agent run completing.
`route_to_X_agent` emits the start event when it calls `X_agent.chat` and
the completion event when that call returns normally; when the call
raises, the run never completes and only the start event is emitted. -/
inductive OrchEvent where
  | agentStart (agent : String) (query : JValue)
  | agentDone (agent : String)

/-- The external collaborators of `NFTOrchestrator.chat`: the two
decision-service rounds plus the eight agents, each an opaque
`chat(query) -> str` that can raise. -/
structure OrchEnv where
  decide : List Msg → Decision1
  synth : List Msg → Decision2
  gaming : JValue → Except String String
  price : JValue → Except String String
  brand : JValue → Except String String
  defi : JValue → Except String String
  fungible : JValue → Except String String
  wallet : JValue → Except String String
  token : JValue → Except String String
  portfolio : JValue → Except String String

/-- Common body of the eight single-agent routing wrappers
(`route_to_gaming_agent`, ..., main.py:282-592; they are textually
identical up to the agent called, the `agent` tag in the outcome dict and
the error label): call the agent inside `try`, return a success outcome
dict on return and an error outcome dict when the agent raised. -/
def routeSingleAgent (call : JValue → Except String String)
    (agentTag errLabel : String) (query reason : JValue) :
    List OrchEvent × JValue :=
  match call query with
  | .ok result =>
    ([.agentStart agentTag query, .agentDone agentTag],
     .jobj [("agent", .jstr agentTag), ("query", query), ("reason", reason),
            ("response", .jstr result)])
  | .error e =>
    ([.agentStart agentTag query],
     .jobj [("agent", .jstr agentTag), ("query", query), ("reason", reason),
            ("error", .jstr (errLabel ++ e))])

/-- `NFTOrchestrator.route_to_gaming_agent` (main.py:282). -/
def route_to_gaming_agent (env : OrchEnv) (query reason : JValue) : List OrchEvent × JValue :=
  routeSingleAgent env.gaming "gaming" "Gaming agent error: " query reason

/-- `NFTOrchestrator.route_to_price_agent` (main.py:321). -/
def route_to_price_agent (env : OrchEnv) (query reason : JValue) : List OrchEvent × JValue :=
  routeSingleAgent env.price "price_estimation" "Price agent error: " query reason

/-- `NFTOrchestrator.route_to_brand_agent` (main.py:360). -/
def route_to_brand_agent (env : OrchEnv) (query reason : JValue) : List OrchEvent × JValue :=
  routeSingleAgent env.brand "brand" "Brand agent error: " query reason

/-- `NFTOrchestrator.route_to_defi_agent` (main.py:399). -/
def route_to_defi_agent (env : OrchEnv) (query reason : JValue) : List OrchEvent × JValue :=
  routeSingleAgent env.defi "defi" "DeFi agent error: " query reason

/-- `NFTOrchestrator.route_to_fungible_agent` (main.py:438). -/
def route_to_fungible_agent (env : OrchEnv) (query reason : JValue) : List OrchEvent × JValue :=
  routeSingleAgent env.fungible "fungible" "Fungible token agent error: " query reason

/-- `NFTOrchestrator.route_to_wallet_agent` (main.py:477). -/
def route_to_wallet_agent (env : OrchEnv) (query reason : JValue) : List OrchEvent × JValue :=
  routeSingleAgent env.wallet "wallet" "Wallet analytics agent error: " query reason

/-- `NFTOrchestrator.route_to_token_agent` (main.py:516). -/
def route_to_token_agent (env : OrchEnv) (query reason : JValue) : List OrchEvent × JValue :=
  routeSingleAgent env.token "token" "Token analytics agent error: " query reason

/-- `NFTOrchestrator.route_to_portfolio_agent` (main.py:555). -/
def route_to_portfolio_agent (env : OrchEnv) (query reason : JValue) : List OrchEvent × JValue :=
  routeSingleAgent env.portfolio "portfolio" "Portfolio analysis agent error: " query reason

/-- `NFTOrchestrator.route_to_both_agents` (main.py:594): run the gaming
agent to completion first, then the price agent; any exception from
either run is caught and folded into a single error outcome dict (so a
gaming fault means the price agent is never started). -/
def route_to_both_agents (env : OrchEnv) (gaming_query price_query reason : JValue) :
    List OrchEvent × JValue :=
  match env.gaming gaming_query with
  | .error e =>
    ([.agentStart "gaming" gaming_query],
     .jobj [("agent", .jstr "both"), ("gaming_query", gaming_query),
            ("price_query", price_query), ("reason", reason),
            ("error", .jstr ("Both agents error: " ++ e))])
  | .ok gaming_result =>
    match env.price price_query with
    | .error e =>
      ([.agentStart "gaming" gaming_query, .agentDone "gaming",
        .agentStart "price_estimation" price_query],
       .jobj [("agent", .jstr "both"), ("gaming_query", gaming_query),
              ("price_query", price_query), ("reason", reason),
              ("error", .jstr ("Both agents error: " ++ e))])
    | .ok price_result =>
      ([.agentStart "gaming" gaming_query, .agentDone "gaming",
        .agentStart "price_estimation" price_query, .agentDone "price_estimation"],
       .jobj [("agent", .jstr "both"), ("gaming_query", gaming_query),
              ("price_query", price_query), ("reason", reason),
              ("gaming_response", .jstr gaming_result),
              ("price_response", .jstr price_result)])

/-- Parameter list shared by the eight single-agent routing wrappers:
`(self, query, reason)`, both required. -/
def routeParams : PyParams := [("query", none), ("reason", none)]

/-- Parameter list of `route_to_both_agents(self, gaming_query, price_query, reason)`. -/
def bothParams : PyParams :=
  [("gaming_query", none), ("price_query", none), ("reason", none)]

/-- `NFTOrchestrator.execute_routing_call` (main.py:660): dispatch on the
routing function name; an unknown name yields an error dict, a known name
binds `**arguments` (a `TypeError` on a bad mapping propagates, modelled
as `Except.error`) and runs the wrapper. -/
def execute_routing_call (env : OrchEnv) (function_name : String)
    (arguments : List (String × JValue)) : Except String (List OrchEvent × JValue) :=
  if function_name = "route_to_gaming_agent" then
    (bindArgs routeParams arguments).map
      (fun b => route_to_gaming_agent env (getArg b "query") (getArg b "reason"))
  else if function_name = "route_to_price_agent" then
    (bindArgs routeParams arguments).map
      (fun b => route_to_price_agent env (getArg b "query") (getArg b "reason"))
  else if function_name = "route_to_brand_agent" then
    (bindArgs routeParams arguments).map
      (fun b => route_to_brand_agent env (getArg b "query") (getArg b "reason"))
  else if function_name = "route_to_defi_agent" then
    (bindArgs routeParams arguments).map
      (fun b => route_to_defi_agent env (getArg b "query") (getArg b "reason"))
  else if function_name = "route_to_fungible_agent" then
    (bindArgs routeParams arguments).map
      (fun b => route_to_fungible_agent env (getArg b "query") (getArg b "reason"))
  else if function_name = "route_to_wallet_agent" then
    (bindArgs routeParams arguments).map
      (fun b => route_to_wallet_agent env (getArg b "query") (getArg b "reason"))
  else if function_name = "route_to_token_agent" then
    (bindArgs routeParams arguments).map
      (fun b => route_to_token_agent env (getArg b "query") (getArg b "reason"))
  else if function_name = "route_to_portfolio_agent" then
    (bindArgs routeParams arguments).map
      (fun b => route_to_portfolio_agent env (getArg b "query") (getArg b "reason"))
  else if function_name = "route_to_both_agents" then
    (bindArgs bothParams arguments).map
      (fun b => route_to_both_agents env
        (getArg b "gaming_query") (getArg b "price_query") (getArg b "reason"))
  else
    .ok ([], .jobj [("error", .jstr ("Unknown routing function: " ++ function_name))])

/-- The system turn of `NFTOrchestrator.chat` (main.py:799; the full text
enumerates the eight agents with routing guidance and keyword hints and
is never inspected by the protocol itself). -/
def orchSystemPrompt : String :=
  "You are an NFT Query Orchestrator. You analyze user queries and route them to the appropriate specialized agent."

/-- Initial conversation of one `NFTOrchestrator.chat` invocation. -/
def orchInitMsgs (user_message : String) : List Msg :=
  [.system orchSystemPrompt, .user user_message]

/-- The routing-call loop of `NFTOrchestrator.chat` (main.py:872-904):
process each requested routing call in order, appending one tool turn per
call. Returns the emitted agent events and either the extended
conversation or the exception that aborted the loop. -/
def processRoutingCalls (env : OrchEnv) :
    List Msg → List ToolCall → List OrchEvent × Except String (List Msg)
  | msgs, [] => ([], .ok msgs)
  | msgs, c :: cs =>
    match execute_routing_call env c.name c.args with
    | .error e => ([], .error e)
    | .ok (evs, res) =>
      let rest := processRoutingCalls env (msgs ++ [.toolResult c.id (jDump res)]) cs
      (evs ++ rest.1, rest.2)

/-- Observable outcome of one orchestrator `chat` invocation. -/
structure OrchRun where
  result : String
  preSynthMsgs : Option (List Msg)
  events : List OrchEvent

/-- `NFTOrchestrator.chat` (main.py:777-971): round 1 routing decision;
on a direct answer return it with no agent invoked; on routing calls run
the loop and then the round-2 synthesis call; any exception inside the
body is caught and returned as `"An error occurred: " ++ str(e)`. -/
def orchChat (env : OrchEnv) (user_message : String) : OrchRun :=
  let msgs0 := orchInitMsgs user_message
  match env.decide msgs0 with
  | .fail e => ⟨"An error occurred: " ++ e, none, []⟩
  | .direct t => ⟨t, none, []⟩
  | .tools calls =>
    let msgs1 := msgs0 ++ [.assistant calls]
    match processRoutingCalls env msgs1 calls with
    | (evs, .error e) => ⟨"An error occurred: " ++ e, none, evs⟩
    | (evs, .ok m) =>
      match env.synth m with
      | .fail e => ⟨"An error occurred: " ++ e, some m, evs⟩
      | .text t => ⟨t, some m, evs⟩

/-- Whether the character list starts with the given pattern. -/
def charsStartWith : List Char → List Char → Bool
  | [], _ => true
  | _ :: _, [] => false
  | p :: ps, c :: cs => p == c && charsStartWith ps cs

/-- Whether the pattern occurs contiguously in the character list. -/
def charsContain (pat : List Char) : List Char → Bool
  | [] => charsStartWith pat []
  | c :: cs => charsStartWith pat (c :: cs) || charsContain pat cs

/-- Python substring test `pat in s` on the code-point sequence. -/
def strContains (s pat : String) : Bool := charsContain pat.data s.data

/-- The `agent_used`/`reason` classification of `chat_endpoint`
(main.py:1050-1080): a chain of substring tests on the finished response
text, in source order, defaulting to `unknown`. -/
def classifyResponse (response : String) : String × String :=
  if strContains response "🎮" && strContains response "Gaming" then
    ("gaming", "Query routed to NFT Gaming Agent")
  else if strContains response "💰" && strContains response "Price" then
    ("price_estimation", "Query routed to NFT Price Estimation Agent")
  else if strContains response "🏷️" && strContains response "Brand" then
    ("brand", "Query routed to NFT Brand Agent")
  else if strContains response "🔄" && strContains response "DeFi" then
    ("defi", "Query routed to NFT DeFi Agent")
  else if strContains response "🪙" && strContains response "Fungible" then
    ("fungible", "Query routed to NFT Fungible Token Agent")
  else if strContains response "💼" && strContains response "Wallet" then
    ("wallet", "Query routed to NFT Wallet Analytics Agent")
  else if strContains response "🪙" && strContains response "Token" then
    ("token", "Query routed to NFT Token Analytics Agent")
  else if strContains response "💼" && strContains response "Portfolio" then
    ("portfolio", "Query routed to Portfolio Analysis Agent")
  else if strContains response "Multi-Agent" then
    ("multiple", "Query processed by multiple agents")
  else
    ("unknown", "Query processed by orchestrator")

/-- The `ChatResponse` pydantic model of the HTTP surface. -/
structure ChatResponseM where
  response : String
  agent_used : String
  query : String
  reason : String
  success : Bool
  error : Option String

/-- `chat_endpoint` (main.py:1029-1098): obtain the orchestrator
(`Except.error` models `get_orchestrator` raising when initialization
fails), run `orchestrator.chat`, classify the response text, and answer
`success=True`; any exception reaching the endpoint handler is converted
to a `success=False` response with empty text and a populated error. -/
def chatEndpoint (orch : Except String OrchEnv) (message : String) : ChatResponseM :=
  match orch with
  | .error e =>
    ⟨"", "error", message, "Error occurred during processing", false, some e⟩
  | .ok env =>
    let response := (orchChat env message).result
    let cls := classifyResponse response
    ⟨response, cls.1, message, cls.2, true, none⟩

/-- Number of tool-result turns in a conversation carrying the given
call id. -/
def toolResultCount (msgs : List Msg) (tid : String) : Nat :=
  msgs.countP (fun m =>
    match m with
    | .toolResult i _ => i == tid
    | _ => false)

/-- Whether an event marks an agent run beginning. -/
def isAgentStart : OrchEvent → Bool
  | .agentStart _ _ => true
  | .agentDone _ => false

/-- Number of agent runs begun in an event trace. -/
def agentStartCount (evs : List OrchEvent) : Nat := evs.countP isAgentStart

/-- Whether an event belongs to the price agent's run. -/
def isPriceEvent : OrchEvent → Bool
  | .agentStart a _ => a == "price_estimation"
  | .agentDone a => a == "price_estimation"

/-- Whether an event belongs to the gaming agent's run. -/
def isGamingEvent : OrchEvent → Bool
  | .agentStart a _ => a == "gaming"
  | .agentDone a => a == "gaming"

/-- Whether a name is in the brand agent's tool registry
(the three names `execute_function_call` recognizes). -/
def isBrandTool (name : String) : Bool :=
  name == "get_brand_details" || name == "get_brand_metrics_by_contract" ||
    name == "get_brand_category_details"

/-- The parameter list the brand dispatcher binds for a registry name. -/
def brandToolParams (name : String) : Option PyParams :=
  if name = "get_brand_details" then some brandDetailsParams
  else if name = "get_brand_metrics_by_contract" then some brandContractParams
  else if name = "get_brand_category_details" then some brandCategoryParams
  else none

/-- Whether an `Except` value is a success. -/
def exceptIsOk : Except ε α → Bool
  | .ok _ => true
  | .error _ => false

/-- Whether an argument mapping binds to the named tool's parameters
(vacuously true for names outside the registry, whose dispatch never
binds anything). -/
def argsBindOk (name : String) (args : List (String × JValue)) : Bool :=
  match brandToolParams name with
  | some ps => exceptIsOk (bindArgs ps args)
  | none => true

/-- The names of the eight single-agent routing operations. -/
def singleRouteNames : List String :=
  ["route_to_gaming_agent", "route_to_price_agent", "route_to_brand_agent",
   "route_to_defi_agent", "route_to_fungible_agent", "route_to_wallet_agent",
   "route_to_token_agent", "route_to_portfolio_agent"]

/-- A concrete HTTP collaborator that always fails at transport level
(used to instantiate closed statements). -/
def httpStub : HttpOracle := fun _ _ => .reqErr "connection refused"

/-- A concrete agent stub returning a fixed text. -/
def constAgent (s : String) : JValue → Except String String := fun _ => .ok s

/-- A concrete orchestrator environment whose routing round answers
directly; counterexamples and witnesses override single fields. -/
def envBase : OrchEnv :=
  { decide := fun _ => .direct "direct answer"
    synth := fun _ => .text "synthesized answer"
    gaming := constAgent "gaming says hi"
    price := constAgent "price says hi"
    brand := constAgent "brand says hi"
    defi := constAgent "defi says hi"
    fungible := constAgent "fungible says hi"
    wallet := constAgent "wallet says hi"
    token := constAgent "token says hi"
    portfolio := constAgent "portfolio says hi" }

/-- A concrete orchestrator environment whose routing round fails
(the decision service is unreachable). -/
def envDecideFail : OrchEnv :=
  { envBase with decide := fun _ => .fail "Connection error" }

/-- Claim C1, counterexample: at the concrete environment whose
orchestrator-level routing (decision service) call fails, the /chat
response still has `success = true`, and the error text is returned as
the response body — contradicting the claim that a decision service
failure for a query yields `success = false` with an empty response. -/
theorem chat_endpoint_success_true_on_decision_failure :
    (chatEndpoint (.ok envDecideFail) "hello").success = true ∧
    (chatEndpoint (.ok envDecideFail) "hello").response =
      "An error occurred: Connection error" := by
  constructor <;> rfl

/-- Claim C1, amended: with an initialized orchestrator, every /chat
response has `success = true` and no error, and its body is exactly
`chat()`'s returned text — orchestrator-level decision failures are
swallowed inside `chat` as an error string; `success = false` (with
empty response and populated error) arises exactly when an exception
escapes to the endpoint handler, e.g. orchestrator initialization
failure. -/
theorem chat_endpoint_success_iff_orchestrator_available :
    (∀ (env : OrchEnv) (m : String),
      (chatEndpoint (.ok env) m).success = true ∧
      (chatEndpoint (.ok env) m).error = none ∧
      (chatEndpoint (.ok env) m).response = (orchChat env m).result) ∧
    (∀ (e m : String),
      chatEndpoint (.error e) m =
        ⟨"", "error", m, "Error occurred during processing", false, some e⟩) := by
  constructor
  · intro env m
    exact ⟨rfl, rfl, rfl⟩
  · intro e m
    rfl

/-- Claim C2, counterexample: for a name in the registry and an argument
mapping the decision service can supply (here the empty mapping, missing
the required `brand`), the dispatcher raises a `TypeError` out of
`execute_function_call` instead of returning a result value. -/
theorem execute_missing_required_arg_raises :
    execute_function_call httpStub "get_brand_details" [] =
      Except.error "TypeError: missing a required keyword argument" := by
  rfl

/-- Claim C2, amended: for every argument mapping that binds to the named
handler's parameters (all required parameters supplied, no unexpected
keys — which is every mapping conforming to the declared schema), the
dispatcher returns a result value and never a fault; transport failures
inside the handler are mapped to an error record. A mapping that fails
to bind raises `TypeError` to the dispatcher's caller. -/
theorem execute_function_call_total_when_args_bind :
    (∀ (http : HttpOracle) (name : String) (args : List (String × JValue)),
      argsBindOk name args = true →
      ∃ r, execute_function_call http name args = Except.ok r) ∧
    (∀ (http : HttpOracle) (bv : JValue) (e : String),
      http brandBaseUrl [("brand", bv), ("time_range", .jstr "24h")] = .reqErr e →
      execute_function_call http "get_brand_details" [("brand", bv)] =
        Except.ok (.jobj [("error", .jstr ("API request failed: " ++ e))])) := by
  constructor
  · intro http name args h
    unfold execute_function_call
    unfold argsBindOk brandToolParams at h
    split_ifs at h ⊢ with h1 h2 h3
    · have h' : exceptIsOk (bindArgs brandDetailsParams args) = true := h
      cases hb : bindArgs brandDetailsParams args with
      | error e => rw [hb] at h'; simp [exceptIsOk] at h'
      | ok b => exact ⟨_, rfl⟩
    · have h' : exceptIsOk (bindArgs brandContractParams args) = true := h
      cases hb : bindArgs brandContractParams args with
      | error e => rw [hb] at h'; simp [exceptIsOk] at h'
      | ok b => exact ⟨_, rfl⟩
    · have h' : exceptIsOk (bindArgs brandCategoryParams args) = true := h
      cases hb : bindArgs brandCategoryParams args with
      | error e => rw [hb] at h'; simp [exceptIsOk] at h'
      | ok b => exact ⟨_, rfl⟩
    · exact ⟨_, rfl⟩
  · intro http bv e he
    simp [execute_function_call, bindArgs, brandDetailsParams, collectParams,
      lookupArg, getArg, get_brand_details, he]

/-- Witness for the amended C2 theorem at concrete inputs. -/
theorem execute_function_call_total_when_args_bind_witness :
    (∃ r, execute_function_call httpStub "get_brand_details"
        [("brand", JValue.jstr "Nike")] = Except.ok r) ∧
    execute_function_call httpStub "get_brand_details"
        [("brand", JValue.jstr "StarBucks")] =
      Except.ok (.jobj [("error", .jstr "API request failed: connection refused")]) :=
  ⟨execute_function_call_total_when_args_bind.1 httpStub "get_brand_details"
      [("brand", JValue.jstr "Nike")] (by rfl),
   execute_function_call_total_when_args_bind.2 httpStub (JValue.jstr "StarBucks")
      "connection refused" rfl⟩

/-- Claim C3: whenever the routing round answers directly, the
orchestrator's `chat` returns exactly that text, makes no synthesis call,
and records no agent invocation (and hence no tool dispatcher call, which
only agents make). -/
theorem orchChat_direct_returns_text_no_invocations
    (env : OrchEnv) (q t : String)
    (h : env.decide (orchInitMsgs q) = .direct t) :
    orchChat env q = ⟨t, none, []⟩ := by
  simp [orchChat, h]

/-- Witness for C3 at a concrete environment. -/
theorem orchChat_direct_returns_text_no_invocations_witness :
    orchChat envBase "what is an NFT" = ⟨"direct answer", none, []⟩ :=
  orchChat_direct_returns_text_no_invocations envBase "what is an NFT" "direct answer" rfl

/-- Dispatching a name outside the brand registry yields the unknown-
function error record, for every argument mapping, and never a fault. -/
lemma exec_unknown_name (http : HttpOracle) (name : String)
    (args : List (String × JValue)) (h : isBrandTool name = false) :
    execute_function_call http name args =
      Except.ok (.jobj [("error", .jstr ("Unknown function: " ++ name))]) := by
  simp only [isBrandTool, Bool.or_eq_false_iff, beq_eq_false_iff_ne, ne_eq] at h
  obtain ⟨⟨h1, h2⟩, h3⟩ := h
  simp [execute_function_call, h1, h2, h3]

/-- Claim C4: a tool name absent from the registry always yields the
`Unknown function` failure record from the dispatcher (never an unhandled
fault), and an agent run whose round-1 decision requests such a name
still reaches its synthesis step, with the failure recorded as that
request's tool-result turn. -/
theorem unknown_tool_reported_and_synthesis_reached :
    (∀ (http : HttpOracle) (name : String) (args : List (String × JValue)),
      isBrandTool name = false →
      execute_function_call http name args =
        Except.ok (.jobj [("error", .jstr ("Unknown function: " ++ name))])) ∧
    (∀ (env : AgentEnv) (q : String) (c : ToolCall),
      isBrandTool c.name = false →
      env.decide (brandInitMsgs q) = .tools [c] →
      (agentChat env q).preSynthMsgs =
        some (brandInitMsgs q ++ [.assistant [c],
          .toolResult c.id
            (jDump (.jobj [("error", .jstr ("Unknown function: " ++ c.name))]))])) := by
  constructor
  · exact exec_unknown_name
  · intro env q c hn hd
    have hx := exec_unknown_name env.http c.name c.args hn
    simp only [agentChat, hd, processToolCalls, hx, List.append_assoc, List.cons_append,
      List.nil_append, List.singleton_append]
    cases env.synth (brandInitMsgs q ++ [.assistant [c],
        .toolResult c.id
          (jDump (.jobj [("error", .jstr ("Unknown function: " ++ c.name))]))]) <;>
      simp [List.append_assoc]

/-- A concrete agent environment whose round 1 requests a tool name
absent from the registry. -/
def envUnknownTool : AgentEnv :=
  { decide := fun _ => .tools [⟨"call_1", "get_brand_insights", []⟩]
    synth := fun _ => .text "done"
    http := httpStub }

/-- Witness for C4 at a concrete environment. -/
theorem unknown_tool_reported_and_synthesis_reached_witness :
    (agentChat envUnknownTool "tell me about brand insights").preSynthMsgs =
      some (brandInitMsgs "tell me about brand insights" ++
        [.assistant [⟨"call_1", "get_brand_insights", []⟩],
         .toolResult "call_1"
           (jDump (.jobj [("error", .jstr ("Unknown function: " ++ "get_brand_insights"))]))]) :=
  unknown_tool_reported_and_synthesis_reached.2 envUnknownTool
    "tell me about brand insights" ⟨"call_1", "get_brand_insights", []⟩ rfl rfl

/-- Claim C5: when round 1 requests two `get_brand_details` calls and the
first handler hits a transport fault while the second succeeds, both
results are appended as tool-result turns in request order and the
synthesis call is still made on the extended conversation. -/
theorem partial_failure_both_recorded_and_synthesized
    (env : AgentEnv) (q id1 id2 : String) (b1 b2 : JValue) (e : String) (j : JValue)
    (hd : env.decide (brandInitMsgs q) =
      .tools [⟨id1, "get_brand_details", [("brand", b1)]⟩,
              ⟨id2, "get_brand_details", [("brand", b2)]⟩])
    (h1 : env.http brandBaseUrl [("brand", b1), ("time_range", .jstr "24h")] = .reqErr e)
    (h2 : env.http brandBaseUrl [("brand", b2), ("time_range", .jstr "24h")] = .ok j) :
    (agentChat env q).preSynthMsgs =
      some (brandInitMsgs q ++
        [.assistant [⟨id1, "get_brand_details", [("brand", b1)]⟩,
                     ⟨id2, "get_brand_details", [("brand", b2)]⟩],
         .toolResult id1 (jDump (.jobj [("error", .jstr ("API request failed: " ++ e))])),
         .toolResult id2 (jDump j)]) := by
  have hx1 : execute_function_call env.http "get_brand_details" [("brand", b1)] =
      Except.ok (.jobj [("error", .jstr ("API request failed: " ++ e))]) := by
    simp [execute_function_call, bindArgs, brandDetailsParams, collectParams,
      lookupArg, getArg, get_brand_details, h1]
  have hx2 : execute_function_call env.http "get_brand_details" [("brand", b2)] =
      Except.ok j := by
    simp [execute_function_call, bindArgs, brandDetailsParams, collectParams,
      lookupArg, getArg, get_brand_details, h2]
  simp only [agentChat, hd, processToolCalls, hx1, hx2, List.append_assoc,
    List.cons_append, List.nil_append]
  split <;> simp [List.append_assoc]

/-- A concrete HTTP collaborator for which the StarBucks lookup hits a
transport fault while every other request succeeds. -/
def httpFirstFails : HttpOracle := fun _ params =>
  match lookupArg params "brand" with
  | some (.jstr "StarBucks") => .reqErr "connection reset"
  | _ => .ok (.jobj [("data", .jarr [])])

/-- A concrete agent environment requesting two tool calls whose first
handler fails at transport level and whose second succeeds. -/
def envPartialFailure : AgentEnv :=
  { decide := fun _ =>
      .tools [⟨"call_1", "get_brand_details", [("brand", .jstr "StarBucks")]⟩,
              ⟨"call_2", "get_brand_details", [("brand", .jstr "Nike")]⟩]
    synth := fun _ => .text "combined answer"
    http := httpFirstFails }

/-- Witness for C5 at a concrete environment. -/
theorem partial_failure_both_recorded_and_synthesized_witness :
    (agentChat envPartialFailure "StarBucks and Nike brand details").preSynthMsgs =
      some (brandInitMsgs "StarBucks and Nike brand details" ++
        [.assistant [⟨"call_1", "get_brand_details", [("brand", .jstr "StarBucks")]⟩,
                     ⟨"call_2", "get_brand_details", [("brand", .jstr "Nike")]⟩],
         .toolResult "call_1"
           (jDump (.jobj [("error", .jstr ("API request failed: " ++ "connection reset"))])),
         .toolResult "call_2" (jDump (.jobj [("data", .jarr [])]))]) :=
  partial_failure_both_recorded_and_synthesized envPartialFailure
    "StarBucks and Nike brand details" "call_1" "call_2"
    (.jstr "StarBucks") (.jstr "Nike") "connection reset" (.jobj [("data", .jarr [])])
    rfl rfl rfl

/-- Claim C6: in the combined `route_to_both_agents` operation, every
price-agent event in the trace is strictly preceded by the completion of
the gaming agent's run, and no gaming-agent event occurs at or after any
price-agent event — the gaming run completes before the price run begins
and the two are never interleaved. -/
theorem gaming_completes_before_price_starts
    (env : OrchEnv) (gq pq r : JValue) (i : Nat) (e : OrchEvent)
    (hi : ((route_to_both_agents env gq pq r).1).get? i = some e)
    (hp : isPriceEvent e = true) :
    (∃ j, j < i ∧ ((route_to_both_agents env gq pq r).1).get? j =
        some (.agentDone "gaming")) ∧
    (∀ (k : Nat) (e2 : OrchEvent), i ≤ k →
      ((route_to_both_agents env gq pq r).1).get? k = some e2 →
      isGamingEvent e2 = false) := by
  unfold route_to_both_agents at hi ⊢
  cases hg : env.gaming gq with
  | error ge =>
    rw [hg] at hi
    rcases i with _|i
    · simp [List.get?] at hi; rw [← hi] at hp; simp [isPriceEvent] at hp
    · simp [List.get?] at hi
  | ok gres =>
    rw [hg] at hi
    cases hpr : env.price pq with
    | error pe =>
      rw [hpr] at hi
      rcases i with _|_|_|i
      · simp [List.get?] at hi; rw [← hi] at hp; simp [isPriceEvent] at hp
      · simp [List.get?] at hi; rw [← hi] at hp; simp [isPriceEvent] at hp
      · refine ⟨⟨1, by omega, by simp [List.get?]⟩, ?_⟩
        intro k e2 hk hke
        rcases k with _|_|_|k
        · omega
        · omega
        · simp [List.get?] at hke; rw [← hke]; simp [isGamingEvent]
        · simp [List.get?] at hke
      · simp [List.get?] at hi
    | ok pres =>
      rw [hpr] at hi
      rcases i with _|_|_|_|i
      · simp [List.get?] at hi; rw [← hi] at hp; simp [isPriceEvent] at hp
      · simp [List.get?] at hi; rw [← hi] at hp; simp [isPriceEvent] at hp
      · refine ⟨⟨1, by omega, by simp [List.get?]⟩, ?_⟩
        intro k e2 hk hke
        rcases k with _|_|_|_|k
        · omega
        · omega
        · simp [List.get?] at hke; rw [← hke]; simp [isGamingEvent]
        · simp [List.get?] at hke; rw [← hke]; simp [isGamingEvent]
        · simp [List.get?] at hke
      · refine ⟨⟨1, by omega, by simp [List.get?]⟩, ?_⟩
        intro k e2 hk hke
        rcases k with _|_|_|_|k
        · omega
        · omega
        · simp [List.get?] at hke; rw [← hke]; simp [isGamingEvent]
        · simp [List.get?] at hke; rw [← hke]; simp [isGamingEvent]
        · simp [List.get?] at hke
      · simp [List.get?] at hi

/-- Witness for C6: at a concrete environment where both agents succeed,
the price-start event at index 2 is preceded by the gaming completion. -/
theorem gaming_completes_before_price_starts_witness :
    (∃ j, j < 2 ∧
      ((route_to_both_agents envBase (.jstr "g") (.jstr "p") (.jstr "r")).1).get? j =
        some (.agentDone "gaming")) ∧
    (∀ (k : Nat) (e2 : OrchEvent), 2 ≤ k →
      ((route_to_both_agents envBase (.jstr "g") (.jstr "p") (.jstr "r")).1).get? k =
        some e2 →
      isGamingEvent e2 = false) :=
  gaming_completes_before_price_starts envBase (.jstr "g") (.jstr "p") (.jstr "r") 2
    (.agentStart "price_estimation" (.jstr "p")) rfl rfl

/-- Counting tool-result turns distributes over conversation append. -/
lemma toolResultCount_append (a b : List Msg) (tid : String) :
    toolResultCount (a ++ b) tid = toolResultCount a tid + toolResultCount b tid := by
  simp [toolResultCount, List.countP_append]

/-- The agent dispatch loop appends, per processed request, exactly one
tool-result turn carrying that request's id: on success the extended
conversation's per-id turn count is the initial count plus the number of
requests carrying that id. -/
lemma processToolCalls_count (http : HttpOracle) (calls : List ToolCall) :
    ∀ (msgs : List Msg) (ns : List String) (m : List Msg),
      processToolCalls http msgs calls = (ns, .ok m) →
      ∀ tid, toolResultCount m tid =
        toolResultCount msgs tid + (calls.map ToolCall.id).count tid := by
  induction calls with
  | nil =>
    intro msgs ns m h tid
    simp only [processToolCalls, Prod.mk.injEq] at h
    obtain ⟨h1, h2⟩ := h
    injection h2 with h2
    subst h2
    simp
  | cons c cs ih =>
    intro msgs ns m h tid
    simp only [processToolCalls] at h
    cases hx : execute_function_call http c.name c.args with
    | error e => rw [hx] at h; simp at h
    | ok res =>
      rw [hx] at h
      dsimp only at h
      cases hr : processToolCalls http (msgs ++ [.toolResult c.id (jDump res)]) cs with
      | mk ns2 exc2 =>
        rw [hr] at h
        simp only [Prod.mk.injEq] at h
        obtain ⟨h1, h2⟩ := h
        rw [h2] at hr
        have hm := ih (msgs ++ [.toolResult c.id (jDump res)]) ns2 m hr tid
        rw [toolResultCount_append] at hm
        have hsingle : toolResultCount [Msg.toolResult c.id (jDump res)] tid =
            if c.id == tid then 1 else 0 := by
          simp [toolResultCount, List.countP_cons, List.countP_nil]
        rw [hsingle] at hm
        rw [List.map_cons, List.count_cons]
        cases hb : (c.id == tid) <;> simp [hb] at hm ⊢ <;> omega

/-- Orchestrator analog of `processToolCalls_count` for the routing-call
loop. -/
lemma processRoutingCalls_count (env : OrchEnv) (calls : List ToolCall) :
    ∀ (msgs : List Msg) (evs : List OrchEvent) (m : List Msg),
      processRoutingCalls env msgs calls = (evs, .ok m) →
      ∀ tid, toolResultCount m tid =
        toolResultCount msgs tid + (calls.map ToolCall.id).count tid := by
  induction calls with
  | nil =>
    intro msgs evs m h tid
    simp only [processRoutingCalls, Prod.mk.injEq] at h
    obtain ⟨h1, h2⟩ := h
    injection h2 with h2
    subst h2
    simp
  | cons c cs ih =>
    intro msgs evs m h tid
    simp only [processRoutingCalls] at h
    cases hx : execute_routing_call env c.name c.args with
    | error e => rw [hx] at h; simp at h
    | ok pr =>
      obtain ⟨cevs, res⟩ := pr
      rw [hx] at h
      dsimp only at h
      cases hr : processRoutingCalls env (msgs ++ [.toolResult c.id (jDump res)]) cs with
      | mk evs2 exc2 =>
        rw [hr] at h
        simp only [Prod.mk.injEq] at h
        obtain ⟨h1, h2⟩ := h
        rw [h2] at hr
        have hm := ih (msgs ++ [.toolResult c.id (jDump res)]) evs2 m hr tid
        rw [toolResultCount_append] at hm
        have hsingle : toolResultCount [Msg.toolResult c.id (jDump res)] tid =
            if c.id == tid then 1 else 0 := by
          simp [toolResultCount, List.countP_cons, List.countP_nil]
        rw [hsingle] at hm
        rw [List.map_cons, List.count_cons]
        cases hb : (c.id == tid) <;> simp [hb] at hm ⊢ <;> omega

/-- The initial conversation plus the round-1 assistant turn contains no
tool-result turn. -/
lemma toolResultCount_brand_init (q : String) (calls : List ToolCall) (tid : String) :
    toolResultCount (brandInitMsgs q ++ [.assistant calls]) tid = 0 := by
  simp [toolResultCount, brandInitMsgs, List.countP_append, List.countP_cons, List.countP_nil]

/-- Orchestrator analog of `toolResultCount_brand_init`. -/
lemma toolResultCount_orch_init (q : String) (calls : List ToolCall) (tid : String) :
    toolResultCount (orchInitMsgs q ++ [.assistant calls]) tid = 0 := by
  simp [toolResultCount, orchInitMsgs, List.countP_append, List.countP_cons, List.countP_nil]

/-- Claim C7: in both the agent cycle and the orchestrator cycle, when
the round-2 synthesis call is made, every round-1 request (under
pairwise-distinct call ids, which the decision service guarantees) has
exactly one tool-result turn keyed by its id in the conversation handed
to synthesis — none unanswered, none answered twice. -/
theorem every_request_answered_exactly_once_before_synthesis :
    (∀ (env : AgentEnv) (q : String) (calls : List ToolCall) (m : List Msg),
      env.decide (brandInitMsgs q) = .tools calls →
      (agentChat env q).preSynthMsgs = some m →
      (calls.map ToolCall.id).Nodup →
      ∀ c ∈ calls, toolResultCount m c.id = 1) ∧
    (∀ (env : OrchEnv) (q : String) (calls : List ToolCall) (m : List Msg),
      env.decide (orchInitMsgs q) = .tools calls →
      (orchChat env q).preSynthMsgs = some m →
      (calls.map ToolCall.id).Nodup →
      ∀ c ∈ calls, toolResultCount m c.id = 1) := by
  constructor
  · intro env q calls m hd hm hnd c hc
    simp only [agentChat, hd] at hm
    cases hp : processToolCalls env.http (brandInitMsgs q ++ [.assistant calls]) calls with
    | mk ns exc =>
      rw [hp] at hm
      cases exc with
      | error e => simp at hm
      | ok m2 =>
        dsimp only at hm
        have hm2 : m2 = m := by
          cases hs : env.synth m2 <;> rw [hs] at hm <;> simpa using hm
        rw [hm2] at hp
        have := processToolCalls_count env.http calls
          (brandInitMsgs q ++ [.assistant calls]) ns m hp c.id
        rw [toolResultCount_brand_init] at this
        rw [this, Nat.zero_add]
        exact List.count_eq_one_of_mem hnd (List.mem_map_of_mem _ hc)
  · intro env q calls m hd hm hnd c hc
    simp only [orchChat, hd] at hm
    cases hp : processRoutingCalls env (orchInitMsgs q ++ [.assistant calls]) calls with
    | mk evs exc =>
      rw [hp] at hm
      cases exc with
      | error e => simp at hm
      | ok m2 =>
        dsimp only at hm
        have hm2 : m2 = m := by
          cases hs : env.synth m2 <;> rw [hs] at hm <;> simpa using hm
        rw [hm2] at hp
        have := processRoutingCalls_count env calls
          (orchInitMsgs q ++ [.assistant calls]) evs m hp c.id
        rw [toolResultCount_orch_init] at this
        rw [this, Nat.zero_add]
        exact List.count_eq_one_of_mem hnd (List.mem_map_of_mem _ hc)

/-- The single gaming routing call used by concrete environments. -/
def gamingRoutingCall : ToolCall :=
  ⟨"rc_1", "route_to_gaming_agent",
   [("query", .jstr "gaming metrics"), ("reason", .jstr "gaming keywords")]⟩

/-- A concrete orchestrator environment whose routing round requests one
gaming routing call. -/
def envRouteGaming : OrchEnv :=
  { envBase with decide := fun _ => .tools [gamingRoutingCall] }

/-- Witness for C7 at concrete environments, at both protocol levels. -/
theorem every_request_answered_exactly_once_before_synthesis_witness :
    toolResultCount
      (((agentChat envPartialFailure "StarBucks and Nike brand details").preSynthMsgs).getD [])
      "call_1" = 1 ∧
    toolResultCount
      (((orchChat envRouteGaming "gaming question").preSynthMsgs).getD [])
      "rc_1" = 1 :=
  ⟨every_request_answered_exactly_once_before_synthesis.1 envPartialFailure
      "StarBucks and Nike brand details"
      [⟨"call_1", "get_brand_details", [("brand", .jstr "StarBucks")]⟩,
       ⟨"call_2", "get_brand_details", [("brand", .jstr "Nike")]⟩] _ rfl rfl (by decide)
      ⟨"call_1", "get_brand_details", [("brand", .jstr "StarBucks")]⟩
      (List.mem_cons_self _ _),
   every_request_answered_exactly_once_before_synthesis.2 envRouteGaming
      "gaming question" [gamingRoutingCall] _ rfl rfl (by decide)
      gamingRoutingCall (List.mem_cons_self _ _)⟩

/-- A single-agent routing wrapper always begins exactly one agent run. -/
lemma routeSingleAgent_startCount (call : JValue → Except String String)
    (tag lbl : String) (q r : JValue) :
    agentStartCount (routeSingleAgent call tag lbl q r).1 = 1 := by
  unfold routeSingleAgent
  cases call q <;> simp [agentStartCount, isAgentStart, List.countP_cons, List.countP_nil]

/-- The combined wrapper begins at most two agent runs. -/
lemma routeBoth_startCount (env : OrchEnv) (gq pq r : JValue) :
    agentStartCount (route_to_both_agents env gq pq r).1 ≤ 2 := by
  unfold route_to_both_agents
  cases env.gaming gq
  · simp [agentStartCount, isAgentStart, List.countP_cons, List.countP_nil]
  · cases env.price pq <;>
      simp [agentStartCount, isAgentStart, List.countP_cons, List.countP_nil]

/-- One processed routing call begins at most two agent runs, and exactly
two only for the combined `route_to_both_agents` operation. -/
lemma execRoutingCall_startCount (env : OrchEnv) (name : String)
    (args : List (String × JValue)) (evs : List OrchEvent) (v : JValue)
    (h : execute_routing_call env name args = .ok (evs, v)) :
    agentStartCount evs ≤ 2 ∧
    (agentStartCount evs = 2 → name = "route_to_both_agents") := by
  unfold execute_routing_call at h
  split_ifs at h with h1 h2 h3 h4 h5 h6 h7 h8 h9
  case pos =>
    cases hb : bindArgs routeParams args with
    | error e => rw [hb] at h; simp [Except.map] at h
    | ok b =>
      rw [hb] at h
      dsimp only [Except.map] at h
      injection h with h
      have hevs : evs = (route_to_gaming_agent env (getArg b "query") (getArg b "reason")).1 := by
        rw [h]
      rw [hevs]
      unfold route_to_gaming_agent
      rw [routeSingleAgent_startCount]
      exact ⟨by omega, fun hh => absurd hh (by omega)⟩
  all_goals try
    (cases hb : bindArgs routeParams args with
     | error e => rw [hb] at h; simp [Except.map] at h
     | ok b =>
       rw [hb] at h
       dsimp only [Except.map] at h
       injection h with h
       first
       | (have hevs : evs = (route_to_price_agent env (getArg b "query") (getArg b "reason")).1 := by
            rw [h]
          rw [hevs]; unfold route_to_price_agent; rw [routeSingleAgent_startCount]
          exact ⟨by omega, fun hh => absurd hh (by omega)⟩)
       | (have hevs : evs = (route_to_brand_agent env (getArg b "query") (getArg b "reason")).1 := by
            rw [h]
          rw [hevs]; unfold route_to_brand_agent; rw [routeSingleAgent_startCount]
          exact ⟨by omega, fun hh => absurd hh (by omega)⟩)
       | (have hevs : evs = (route_to_defi_agent env (getArg b "query") (getArg b "reason")).1 := by
            rw [h]
          rw [hevs]; unfold route_to_defi_agent; rw [routeSingleAgent_startCount]
          exact ⟨by omega, fun hh => absurd hh (by omega)⟩)
       | (have hevs : evs = (route_to_fungible_agent env (getArg b "query") (getArg b "reason")).1 := by
            rw [h]
          rw [hevs]; unfold route_to_fungible_agent; rw [routeSingleAgent_startCount]
          exact ⟨by omega, fun hh => absurd hh (by omega)⟩)
       | (have hevs : evs = (route_to_wallet_agent env (getArg b "query") (getArg b "reason")).1 := by
            rw [h]
          rw [hevs]; unfold route_to_wallet_agent; rw [routeSingleAgent_startCount]
          exact ⟨by omega, fun hh => absurd hh (by omega)⟩)
       | (have hevs : evs = (route_to_token_agent env (getArg b "query") (getArg b "reason")).1 := by
            rw [h]
          rw [hevs]; unfold route_to_token_agent; rw [routeSingleAgent_startCount]
          exact ⟨by omega, fun hh => absurd hh (by omega)⟩)
       | (have hevs : evs = (route_to_portfolio_agent env (getArg b "query") (getArg b "reason")).1 := by
            rw [h]
          rw [hevs]; unfold route_to_portfolio_agent; rw [routeSingleAgent_startCount]
          exact ⟨by omega, fun hh => absurd hh (by omega)⟩))
  · -- route_to_both_agents
    cases hb : bindArgs bothParams args with
    | error e => rw [hb] at h; simp [Except.map] at h
    | ok b =>
      rw [hb] at h
      dsimp only [Except.map] at h
      injection h with h
      have hevs : evs = (route_to_both_agents env
          (getArg b "gaming_query") (getArg b "price_query") (getArg b "reason")).1 := by
        rw [h]
      rw [hevs]
      exact ⟨routeBoth_startCount env _ _ _, fun _ => h9⟩
  · -- unknown routing function
    injection h with h
    have hevs : evs = ([] : List OrchEvent) := by
      have := congrArg Prod.fst h
      simpa using this.symm
    rw [hevs]
    exact ⟨by simp [agentStartCount], fun hh => by simp [agentStartCount] at hh⟩

/-- Claim C8, counterexample environment: the routing round returns three
routing calls in one batch (the decision service may request several
parallel tool calls), each naming a different single agent. -/
def threeRouteCalls : List ToolCall :=
  [⟨"rc_1", "route_to_gaming_agent", [("query", .jstr "g"), ("reason", .jstr "r1")]⟩,
   ⟨"rc_2", "route_to_brand_agent", [("query", .jstr "b"), ("reason", .jstr "r2")]⟩,
   ⟨"rc_3", "route_to_price_agent", [("query", .jstr "p"), ("reason", .jstr "r3")]⟩]

/-- See `threeRouteCalls`. -/
def envThreeRoutes : OrchEnv :=
  { envBase with decide := fun _ => .tools threeRouteCalls }

/-- Claim C8, counterexample: a single orchestrator chat call performs
three agent runs — more than the claimed maximum of two — because the
routing loop processes every tool call the decision service returns. -/
theorem three_agent_runs_in_one_chat :
    agentStartCount (orchChat envThreeRoutes "gaming brand price").events = 3 := by
  rfl

/-- Claim C8, amended: each processed routing call leads to at most two
agent runs (two only via the combined gaming+price operation), so when
the routing round returns at most one call, a chat performs zero, one,
or two agent runs, two only via `route_to_both_agents`; a longer batch
multiplies accordingly. -/
theorem at_most_two_agent_runs_for_single_routing_call
    (env : OrchEnv) (q : String) (calls : List ToolCall)
    (hd : env.decide (orchInitMsgs q) = .tools calls)
    (hlen : calls.length ≤ 1) :
    agentStartCount (orchChat env q).events ≤ 2 ∧
    (agentStartCount (orchChat env q).events = 2 →
      ∃ c ∈ calls, c.name = "route_to_both_agents") := by
  rcases calls with _ | ⟨c, cs⟩
  · simp only [orchChat, hd, processRoutingCalls]
    cases env.synth (orchInitMsgs q ++ [.assistant []]) <;>
      simp [agentStartCount, List.countP_nil]
  · rcases cs with _ | ⟨c2, cs2⟩
    · simp only [orchChat, hd]
      cases hx : execute_routing_call env c.name c.args with
      | error e =>
        simp only [processRoutingCalls, hx]
        simp [agentStartCount, List.countP_nil]
      | ok pr =>
        obtain ⟨evs, res⟩ := pr
        have hcount := execRoutingCall_startCount env c.name c.args evs res hx
        simp only [processRoutingCalls, hx]
        cases env.synth ((orchInitMsgs q ++ [.assistant [c]]) ++
            [.toolResult c.id (jDump res)]) <;>
          exact ⟨by simpa using hcount.1,
            fun h2 => ⟨c, by simp, hcount.2 (by simpa using h2)⟩⟩
    · simp at hlen

/-- Witness for the amended C8 theorem at a concrete environment with a
single routing call. -/
theorem at_most_two_agent_runs_for_single_routing_call_witness :
    agentStartCount (orchChat envRouteGaming "gaming question").events ≤ 2 ∧
    (agentStartCount (orchChat envRouteGaming "gaming question").events = 2 →
      ∃ c ∈ [gamingRoutingCall], c.name = "route_to_both_agents") :=
  at_most_two_agent_runs_for_single_routing_call envRouteGaming "gaming question"
    [gamingRoutingCall] rfl (by decide)

/-- Binding the routing wrappers' `(query, reason)` parameters preserves
the supplied `query` value. -/
lemma bindArgs_routeParams_query (args b : List (String × JValue)) (qv : JValue)
    (hb : bindArgs routeParams args = .ok b)
    (hq : lookupArg args "query" = some qv) :
    lookupArg b "query" = some qv := by
  unfold bindArgs routeParams at hb
  split_ifs at hb with hall
  cases hc : collectParams [("query", none), ("reason", none)] args with
  | none => rw [hc] at hb; simp at hb
  | some bound =>
    rw [hc] at hb
    injection hb with hb
    subst hb
    simp only [collectParams, hq] at hc
    cases hr : lookupArg args "reason" with
    | none => rw [hr] at hc; simp [collectParams] at hc
    | some rv =>
      rw [hr] at hc
      simp only [collectParams, Option.map] at hc
      injection hc with hc
      rw [← hc]
      simp [lookupArg]

/-- A single-agent routing wrapper records the exact query it was given
both in its outcome dict and in its start event. -/
lemma routeSingleAgent_query (call : JValue → Except String String)
    (tag lbl : String) (qv rv : JValue) :
    jLookup (routeSingleAgent call tag lbl qv rv).2 "query" = some qv ∧
    ((routeSingleAgent call tag lbl qv rv).1).head? = some (.agentStart tag qv) := by
  unfold routeSingleAgent
  cases call qv <;> simp [jLookup, lookupArg]

/-- Combination step shared by the eight single-agent C9 cases. -/
lemma routeSingle_pair_query (f : JValue → Except String String)
    (tag lbl : String) (b : List (String × JValue)) (qv : JValue)
    (evs : List OrchEvent) (out : JValue)
    (hbq : lookupArg b "query" = some qv)
    (hx : routeSingleAgent f tag lbl (getArg b "query") (getArg b "reason") = (evs, out)) :
    jLookup out "query" = some qv ∧
    (∃ tg, evs.head? = some (.agentStart tg qv)) := by
  have hg : getArg b "query" = qv := by simp [getArg, hbq]
  rw [hg] at hx
  have h2 := routeSingleAgent_query f tag lbl qv (getArg b "reason")
  constructor
  · have hout : out = (routeSingleAgent f tag lbl qv (getArg b "reason")).2 := by rw [hx]
    rw [hout]
    exact h2.1
  · refine ⟨tag, ?_⟩
    have hev : evs = (routeSingleAgent f tag lbl qv (getArg b "reason")).1 := by rw [hx]
    rw [hev]
    exact h2.2

/-- Claim C9: for every routing decision naming one of the eight agents
with a sub-query Q, the recorded outcome dict's `query` field is exactly
Q, and the named agent is started with exactly Q — the orchestrator never
mutates the sub-query. -/
theorem subquery_passed_through_unchanged
    (env : OrchEnv) (name : String) (args : List (String × JValue)) (qv : JValue)
    (evs : List OrchEvent) (out : JValue)
    (hname : name ∈ singleRouteNames)
    (hq : lookupArg args "query" = some qv)
    (hx : execute_routing_call env name args = .ok (evs, out)) :
    jLookup out "query" = some qv ∧
    (∃ tag, evs.head? = some (.agentStart tag qv)) := by
  simp only [singleRouteNames, List.mem_cons, List.not_mem_nil, or_false] at hname
  rcases hname with h|h|h|h|h|h|h|h
  · subst h
    unfold execute_routing_call at hx
    rw [if_pos rfl] at hx
    cases hb : bindArgs routeParams args with
    | error e => rw [hb] at hx; simp [Except.map] at hx
    | ok b =>
      rw [hb] at hx
      dsimp only [Except.map] at hx
      injection hx with hx
      exact routeSingle_pair_query env.gaming "gaming" "Gaming agent error: " b qv evs out
        (bindArgs_routeParams_query args b qv hb hq) hx
  · subst h
    unfold execute_routing_call at hx
    rw [if_neg (by decide), if_pos rfl] at hx
    cases hb : bindArgs routeParams args with
    | error e => rw [hb] at hx; simp [Except.map] at hx
    | ok b =>
      rw [hb] at hx
      dsimp only [Except.map] at hx
      injection hx with hx
      exact routeSingle_pair_query env.price "price_estimation" "Price agent error: " b qv evs out
        (bindArgs_routeParams_query args b qv hb hq) hx
  · subst h
    unfold execute_routing_call at hx
    rw [if_neg (by decide), if_neg (by decide), if_pos rfl] at hx
    cases hb : bindArgs routeParams args with
    | error e => rw [hb] at hx; simp [Except.map] at hx
    | ok b =>
      rw [hb] at hx
      dsimp only [Except.map] at hx
      injection hx with hx
      exact routeSingle_pair_query env.brand "brand" "Brand agent error: " b qv evs out
        (bindArgs_routeParams_query args b qv hb hq) hx
  · subst h
    unfold execute_routing_call at hx
    rw [if_neg (by decide), if_neg (by decide), if_neg (by decide), if_pos rfl] at hx
    cases hb : bindArgs routeParams args with
    | error e => rw [hb] at hx; simp [Except.map] at hx
    | ok b =>
      rw [hb] at hx
      dsimp only [Except.map] at hx
      injection hx with hx
      exact routeSingle_pair_query env.defi "defi" "DeFi agent error: " b qv evs out
        (bindArgs_routeParams_query args b qv hb hq) hx
  · subst h
    unfold execute_routing_call at hx
    rw [if_neg (by decide), if_neg (by decide), if_neg (by decide), if_neg (by decide),
      if_pos rfl] at hx
    cases hb : bindArgs routeParams args with
    | error e => rw [hb] at hx; simp [Except.map] at hx
    | ok b =>
      rw [hb] at hx
      dsimp only [Except.map] at hx
      injection hx with hx
      exact routeSingle_pair_query env.fungible "fungible" "Fungible token agent error: "
        b qv evs out (bindArgs_routeParams_query args b qv hb hq) hx
  · subst h
    unfold execute_routing_call at hx
    rw [if_neg (by decide), if_neg (by decide), if_neg (by decide), if_neg (by decide),
      if_neg (by decide), if_pos rfl] at hx
    cases hb : bindArgs routeParams args with
    | error e => rw [hb] at hx; simp [Except.map] at hx
    | ok b =>
      rw [hb] at hx
      dsimp only [Except.map] at hx
      injection hx with hx
      exact routeSingle_pair_query env.wallet "wallet" "Wallet analytics agent error: "
        b qv evs out (bindArgs_routeParams_query args b qv hb hq) hx
  · subst h
    unfold execute_routing_call at hx
    rw [if_neg (by decide), if_neg (by decide), if_neg (by decide), if_neg (by decide),
      if_neg (by decide), if_neg (by decide), if_pos rfl] at hx
    cases hb : bindArgs routeParams args with
    | error e => rw [hb] at hx; simp [Except.map] at hx
    | ok b =>
      rw [hb] at hx
      dsimp only [Except.map] at hx
      injection hx with hx
      exact routeSingle_pair_query env.token "token" "Token analytics agent error: "
        b qv evs out (bindArgs_routeParams_query args b qv hb hq) hx
  · subst h
    unfold execute_routing_call at hx
    rw [if_neg (by decide), if_neg (by decide), if_neg (by decide), if_neg (by decide),
      if_neg (by decide), if_neg (by decide), if_neg (by decide), if_pos rfl] at hx
    cases hb : bindArgs routeParams args with
    | error e => rw [hb] at hx; simp [Except.map] at hx
    | ok b =>
      rw [hb] at hx
      dsimp only [Except.map] at hx
      injection hx with hx
      exact routeSingle_pair_query env.portfolio "portfolio" "Portfolio analysis agent error: "
        b qv evs out (bindArgs_routeParams_query args b qv hb hq) hx

/-- The events a gaming routing call emits at `envBase`. -/
def execRouteGamingEvents : List OrchEvent :=
  [.agentStart "gaming" (.jstr "gaming metrics"), .agentDone "gaming"]

/-- The outcome dict a gaming routing call records at `envBase`. -/
def execRouteGamingOutcome : JValue :=
  .jobj [("agent", .jstr "gaming"), ("query", .jstr "gaming metrics"),
         ("reason", .jstr "gaming keywords"), ("response", .jstr "gaming says hi")]

/-- Witness for C9 at a concrete routing call. -/
theorem subquery_passed_through_unchanged_witness :
    jLookup (execRouteGamingOutcome) "query" = some (.jstr "gaming metrics") ∧
    (∃ tag, (execRouteGamingEvents).head? =
      some (.agentStart tag (.jstr "gaming metrics"))) := by
  exact subquery_passed_through_unchanged envBase "route_to_gaming_agent"
    gamingRoutingCall.args (.jstr "gaming metrics") execRouteGamingEvents
    execRouteGamingOutcome (by decide) rfl rfl

/-- Claim C10, counterexample: a response containing both the briefcase
emoji and the word Wallet is nevertheless labeled `gaming` when it also
matches the earlier gaming pattern in the chain — so "every response
string containing both is labeled wallet" fails as stated. -/
theorem wallet_pattern_not_universal :
    strContains "🎮 Gaming 💼 Wallet" "💼" = true ∧
    strContains "🎮 Gaming 💼 Wallet" "Wallet" = true ∧
    (classifyResponse "🎮 Gaming 💼 Wallet").1 = "gaming" ∧
    ("gaming" : String) ≠ "wallet" := by
  exact ⟨rfl, rfl, rfl, by decide⟩

/-- Claim C10, amended: `agent_used` is computed solely by the fixed
substring-test chain; any response containing the briefcase emoji and
Wallet that matches none of the five earlier patterns is labeled
`wallet` (the wallet test precedes the portfolio test, so this holds
regardless of which agent produced the text); a response matching no
pattern is labeled `unknown`; and `success` remains `true` in every
case. -/
theorem classify_substring_chain :
    (∀ s : String,
      strContains s "💼" = true → strContains s "Wallet" = true →
      (strContains s "🎮" && strContains s "Gaming") = false →
      (strContains s "💰" && strContains s "Price") = false →
      (strContains s "🏷️" && strContains s "Brand") = false →
      (strContains s "🔄" && strContains s "DeFi") = false →
      (strContains s "🪙" && strContains s "Fungible") = false →
      classifyResponse s = ("wallet", "Query routed to NFT Wallet Analytics Agent")) ∧
    (∀ s : String,
      (strContains s "🎮" && strContains s "Gaming") = false →
      (strContains s "💰" && strContains s "Price") = false →
      (strContains s "🏷️" && strContains s "Brand") = false →
      (strContains s "🔄" && strContains s "DeFi") = false →
      (strContains s "🪙" && strContains s "Fungible") = false →
      (strContains s "💼" && strContains s "Wallet") = false →
      (strContains s "🪙" && strContains s "Token") = false →
      (strContains s "💼" && strContains s "Portfolio") = false →
      strContains s "Multi-Agent" = false →
      classifyResponse s = ("unknown", "Query processed by orchestrator")) ∧
    (∀ (env : OrchEnv) (m : String), (chatEndpoint (.ok env) m).success = true) := by
  refine ⟨?_, ?_, ?_⟩
  · intro s h1 h2 n1 n2 n3 n4 n5
    simp [classifyResponse, h1, h2, n1, n2, n3, n4, n5]
  · intro s n1 n2 n3 n4 n5 n6 n7 n8 n9
    simp [classifyResponse, n1, n2, n3, n4, n5, n6, n7, n8, n9]
  · intro env m
    rfl

/-- Witness for the amended C10 theorem at concrete strings. -/
theorem classify_substring_chain_witness :
    classifyResponse "💼 Wallet report" =
      ("wallet", "Query routed to NFT Wallet Analytics Agent") ∧
    classifyResponse "plain text" = ("unknown", "Query processed by orchestrator") ∧
    (chatEndpoint (.ok envBase) "hi").success = true :=
  ⟨classify_substring_chain.1 "💼 Wallet report" rfl rfl rfl rfl rfl rfl rfl,
   classify_substring_chain.2.1 "plain text" rfl rfl rfl rfl rfl rfl rfl rfl rfl,
   classify_substring_chain.2.2 envBase "hi"⟩
